import Mathlib

/-!
Verification of the Realtime Session Engine of `doubao-ai-livestream`.

The definitions below are a shallow embedding of the third (final) revision of
`src/components/LiveSession.tsx` (lines 1005-1747) together with the shared
types of `src/types.ts`.  Time values (the Web Audio clock and buffer
durations) are modelled as exact rationals; an `AudioBufferSourceNode` is
identified by the natural-number handle given to it at creation, and calling
`source.stop()` on a node is recorded in an explicit trace list, which is the
observable effect of stopping.  React `useState` setters and the `useRef`
cells that mirror them (`currentInput`/`currentInputRef`,
`currentOutput`/`currentOutputRef`) are kept in lockstep by the component, so
each pair is modelled as a single field.
-/

namespace DoubaoLive

/-- Connection lifecycle states, from `ConnectionState` in `src/types.ts`. -/
inductive ConnState
  | DISCONNECTED
  | CONNECTING
  | CONNECTED
  | ERROR
  deriving DecidableEq

/-- Message roles, from the `role` field of `ChatMessage` in `src/types.ts`. -/
inductive Role
  | user
  | model
  deriving DecidableEq

/-- Chat message record, from `ChatMessage` in `src/types.ts` (lines 37-43):
fields `id`, `role`, `text`, `timestamp`, and an optional `isPartial` flag.
The component never sets `isPartial` on the messages it commits, so the field
defaults to `none` (the JS `undefined`).  `timestamp` (a JS `Date`) is
modelled by the same millisecond counter `Date.now()` that builds the ids.
There is no `interrupted` field on this type. -/
structure ChatMessage where
  id : String
  role : Role
  text : String
  timestamp : Nat
  isPartial : Option Bool := none
  deriving DecidableEq

/-- One entry of `message.toolCall.functionCalls` as the handler reads it
(`LiveSession.tsx` lines 1182-1192): `fc.id`, `fc.name` and `fc.args.emotion`
(the only argument ever read). -/
structure FunctionCall where
  id : String
  name : String
  argsEmotion : String
  deriving DecidableEq

/-- One tool response as pushed at lines 1187-1191:
`{ id: fc.id, name: fc.name, response: { result: 'success' } }`. -/
structure ToolResponse where
  id : String
  name : String
  result : String
  deriving DecidableEq

/-- The fields of an inbound `LiveServerMessage` that the `onmessage` callback
(lines 1178-1292) reads.  An audio payload
(`serverContent.modelTurn.parts[0].inlineData.data`) is abstracted to the
duration of its decoded `AudioBuffer`. -/
structure ServerMessage where
  toolCall : Option (List FunctionCall) := none
  audioDur : Option ℚ := none
  inputTranscription : Option String := none
  outputTranscription : Option String := none
  turnComplete : Bool := false
  interrupted : Bool := false
  deriving DecidableEq

/-- The component state and refs of the final `LiveSession` revision
(lines 1006-1041) that the session engine reads or writes.  `sources` models
`sourcesRef.current` (the active `AudioBufferSourceNode` set), `stoppedCalls`
records, in call order, the handles on which `source.stop()` has been invoked,
`sessionOpen` models `sessionPromiseRef.current` being non-null, and
`frameInterval`, `scriptProcessor`, `inputSource` model the cleanup refs of
lines 1039-1041 holding a live resource. -/
structure SessState where
  connectionState : ConnState
  errorMsg : Option String
  currentEmotion : String
  logs : List String
  chatHistory : List ChatMessage
  currentInput : String
  currentOutput : String
  nextStartTime : ℚ
  sources : List Nat
  stoppedCalls : List Nat
  frameInterval : Option Nat
  scriptProcessor : Bool
  inputSource : Bool
  sessionOpen : Bool
  deriving DecidableEq

/-- The initial component state: the `useState` and `useRef` initializers at
lines 1006-1041 (`DISCONNECTED`, emotion `'normal'`, empty log, empty chat
history, empty accumulators, `nextStartTimeRef` 0, empty source set, all
cleanup refs null). -/
def initState : SessState where
  connectionState := .DISCONNECTED
  errorMsg := none
  currentEmotion := "normal"
  logs := []
  chatHistory := []
  currentInput := ""
  currentOutput := ""
  nextStartTime := 0
  sources := []
  stoppedCalls := []
  frameInterval := none
  scriptProcessor := false
  inputSource := false
  sessionOpen := false

/-- `addLog` (lines 1043-1045): prepend the timestamped entry
`` `[${time}] ${msg}` `` and keep the first 25 entries
(`[entry, ...prev].slice(0, 25)`).  `ts` is the wall-clock string from
`toLocaleTimeString`. -/
def addLog (ts msg : String) (logs : List String) : List String :=
  (("[" ++ ts ++ "] " ++ msg) :: logs).take 25

/-- `stopEverything` (lines 1063-1095): log, clear the video frame interval,
disconnect the script processor and the input source, stop every queued
audio source and clear the set, reset the playback cursor to 0, close the
session (the `close()` call is wrapped in try/catch and tolerates an already
closed or never opened session), clear both transcript accumulators, and
transition to `DISCONNECTED`. -/
def stopEverything (ts : String) (s : SessState) : SessState :=
  let s1 := { s with logs := addLog ts "Stopping session..." s.logs }
  let s2 := { s1 with frameInterval := none }
  let s3 := { s2 with scriptProcessor := false }
  let s4 := { s3 with inputSource := false }
  let s5 := { s4 with stoppedCalls := s4.stoppedCalls ++ s4.sources }
  let s6 := { s5 with sources := [] }
  let s7 := { s6 with nextStartTime := 0 }
  let s8 := { s7 with sessionOpen := false }
  let s9 := { s8 with currentInput := "", currentOutput := "" }
  { s9 with connectionState := .DISCONNECTED }

/-- A session state with its debug log erased: the log is the one field a
repeated `stopEverything` still changes (each call prepends one
`"Stopping session..."` entry). -/
def eraseLogs (s : SessState) : SessState := { s with logs := [] }

/-- The tool-call loop of `onmessage` (lines 1181-1193): for each function
call, the known name `'set_emotion'` logs the call, stores `args.emotion` into
`currentEmotion` and pushes exactly one success response; any other name is
skipped with no response.  Responses come back in batch order. -/
def handleToolCalls (ts : String) :
    SessState → List FunctionCall → SessState × List ToolResponse
  | s, [] => (s, [])
  | s, fc :: rest =>
    if fc.name = "set_emotion" then
      let s1 := { s with
        logs := addLog ts ("Tool: set_emotion(" ++ fc.argsEmotion ++ ")") s.logs,
        currentEmotion := fc.argsEmotion }
      let p := handleToolCalls ts s1 rest
      (p.1, { id := fc.id, name := fc.name, result := "success" } :: p.2)
    else
      handleToolCalls ts s rest

/-- Phase 1 of `onmessage` (lines 1180-1197): dispatch the tool-call batch,
when one is present.  The returned list is the batch passed to one
`sendToolResponse` call (sent only when non-empty). -/
def toolPhase (ts : String) (s : SessState) (m : ServerMessage) :
    SessState × List ToolResponse :=
  match m.toolCall with
  | none => (s, [])
  | some fcs => handleToolCalls ts s fcs

/-- Commit the user accumulator as a chat message: the literal pushed at lines
1219-1224 (audio-start flush) and 1263-1268 (turn-complete flush), with id
`Date.now() + '-user'`; the accumulator is cleared in the same step. -/
def commitUser (tN : Nat) (s : SessState) : SessState :=
  { s with
    chatHistory := s.chatHistory ++
      [{ id := toString tN ++ "-user", role := .user, text := s.currentInput,
         timestamp := tN }],
    currentInput := "" }

/-- Commit the model accumulator as a chat message: the literal pushed at
lines 1250-1255 (turn-complete flush), with id `Date.now() + '-model'`; the
accumulator is cleared in the same step. -/
def commitModel (tN : Nat) (s : SessState) : SessState :=
  { s with
    chatHistory := s.chatHistory ++
      [{ id := toString tN ++ "-model", role := .model, text := s.currentOutput,
         timestamp := tN }],
    currentOutput := "" }

/-- Phase 2 of `onmessage`, the audio output handling (lines 1200-1228): when
a payload is present, set the cursor to `max(nextStartTime, ctx.currentTime)`,
start the decoded buffer at that time, advance the cursor by the buffer's
duration, register the source (handle `h`) in the active set, and then flush
a non-empty user transcript (the audio-start flush).  Returns the time passed
to `source.start`, when a payload was present. -/
def audioPhase (now : ℚ) (h tN : Nat) (s : SessState) (m : ServerMessage) :
    SessState × Option ℚ :=
  match m.audioDur with
  | none => (s, none)
  | some dur =>
    let start := max s.nextStartTime now
    let s1 := { s with nextStartTime := start + dur, sources := h :: s.sources }
    let s2 := if s1.currentInput ≠ "" then commitUser tN s1 else s1
    (s2, some start)

/-- The `onended` callback registered at lines 1212-1214: remove the finished
source from the active set. -/
def onEnded (h : Nat) (s : SessState) : SessState :=
  { s with sources := s.sources.erase h }

/-- Phase 3 of `onmessage` (lines 1232-1236): append a user transcription
delta to the user accumulator. -/
def inputTransPhase (s : SessState) (m : ServerMessage) : SessState :=
  match m.inputTranscription with
  | none => s
  | some t => { s with currentInput := s.currentInput ++ t }

/-- Phase 4 of `onmessage` (lines 1239-1243): append a model transcription
delta to the model accumulator. -/
def outputTransPhase (s : SessState) (m : ServerMessage) : SessState :=
  match m.outputTranscription with
  | none => s
  | some t => { s with currentOutput := s.currentOutput ++ t }

/-- Phase 5 of `onmessage`, the turn-complete handling (lines 1246-1272):
flush the model accumulator first (when non-empty), then the user accumulator
(when still non-empty). -/
def turnCompletePhase (tN : Nat) (s : SessState) (m : ServerMessage) : SessState :=
  if m.turnComplete then
    let s1 := if s.currentOutput ≠ "" then commitModel tN s else s
    if s1.currentInput ≠ "" then commitUser tN s1 else s1
  else s

/-- Phase 6 of `onmessage`, the interruption handling (lines 1274-1291): log,
call `stop()` on every active source, clear the active set, reset the cursor
to 0, and then, when the model accumulator is non-empty, commit it with the
truncation marker `' ...'` appended and the id suffix `'-model-interrupted'`,
clearing the accumulator. -/
def interruptedPhase (ts : String) (tN : Nat) (s : SessState) (m : ServerMessage) :
    SessState :=
  if m.interrupted then
    let s1 := { s with logs := addLog ts "Model interrupted" s.logs }
    let s2 := { s1 with
      stoppedCalls := s1.stoppedCalls ++ s1.sources,
      sources := [],
      nextStartTime := 0 }
    if s2.currentOutput ≠ "" then
      { s2 with
        chatHistory := s2.chatHistory ++
          [{ id := toString tN ++ "-model-interrupted", role := .model,
             text := s2.currentOutput ++ " ...", timestamp := tN }],
        currentOutput := "" }
    else s2
  else s

/-- The observable outputs of one `onmessage` invocation: the tool responses
sent back over the transport and, when an audio payload was scheduled, the
time passed to `source.start`. -/
structure MsgOut where
  responses : List ToolResponse
  scheduledStart : Option ℚ
  deriving DecidableEq

/-- The `onmessage` callback (lines 1178-1292) as a state transformer,
processing the sub-fields of one inbound message in source order: tool calls,
audio output (with the audio-start user flush), input transcription, output
transcription, turn-complete, interruption.  `ts` is the wall-clock string for
log entries, `now` is `ctx.currentTime`, `h` the handle of the buffer source
created for an audio payload, and `tN` is `Date.now()`. -/
def onmessage (ts : String) (now : ℚ) (h tN : Nat) (s : SessState)
    (m : ServerMessage) : SessState × MsgOut :=
  let p1 := toolPhase ts s m
  let p2 := audioPhase now h tN p1.1 m
  let s3 := inputTransPhase p2.1 m
  let s4 := outputTransPhase s3 m
  let s5 := turnCompletePhase tN s4 m
  let s6 := interruptedPhase ts tN s5 m
  (s6, { responses := p1.2, scheduledStart := p2.2 })

/-- The `onerror` callback (lines 1297-1303): log the transport error, surface
`"Connection error occurred."` to the caller, transition to `ERROR`, and then
run the same cleanup as `stopEverything` (whose final action transitions to
`DISCONNECTED`). -/
def onerror (ts errText : String) (s : SessState) : SessState :=
  let s1 := { s with logs := addLog ts ("Session Error: " ++ errText) s.logs }
  let s2 := { s1 with errorMsg := some "Connection error occurred." }
  let s3 := { s2 with connectionState := .ERROR }
  stopEverything ts s3

/-- A message carrying only an audio payload of duration `d`. -/
def audioMsg (d : ℚ) : ServerMessage := { audioDur := some d }

/-- A message carrying only a user transcription delta. -/
def userDeltaMsg (t : String) : ServerMessage := { inputTranscription := some t }

/-- A message carrying only a model transcription delta. -/
def modelDeltaMsg (t : String) : ServerMessage := { outputTranscription := some t }

/-- A message carrying only the turn-complete signal. -/
def turnCompleteMsg : ServerMessage := { turnComplete := true }

/-- A message carrying only the interruption signal. -/
def interruptMsg : ServerMessage := { interrupted := true }

/-- A message carrying only a tool-call batch. -/
def toolMsg (fcs : List FunctionCall) : ServerMessage := { toolCall := some fcs }

/-- The per-message externals of one `onmessage` invocation: wall-clock string,
`ctx.currentTime`, the handle of the created buffer source, and `Date.now()`. -/
structure Ext where
  ts : String
  now : ℚ
  hdl : Nat
  tN : Nat

/-- Process one inbound message, keeping only the state. -/
def stepMsg (s : SessState) (e : Ext × ServerMessage) : SessState :=
  (onmessage e.1.ts e.1.now e.1.hdl e.1.tN s e.2).1

/-- Process a list of inbound messages in arrival order. -/
def runMsgs (s : SessState) (evs : List (Ext × ServerMessage)) : SessState :=
  evs.foldl stepMsg s

/-- The scheduled start times produced by a run of audio payload messages:
for each `(duration, ctx.currentTime)` pair, the time `onmessage` passed to
`source.start`. -/
def startsOf (ts : String) (h tN : Nat) (s : SessState) :
    List (ℚ × ℚ) → List ℚ
  | [] => []
  | (d, now) :: rest =>
    let p := onmessage ts now h tN s (audioMsg d)
    p.2.scheduledStart.getD 0 :: startsOf ts h tN p.1 rest

/-- The pure cursor recursion extracted from the audio handler: each start is
`max cursor now` and the cursor advances to `start + duration`.  Proven equal
to `startsOf` below. -/
def pureSchedule (t : ℚ) : List (ℚ × ℚ) → List ℚ
  | [] => []
  | (d, now) :: rest => max t now :: pureSchedule (max t now + d) rest

/-- The `enum` of the `set_emotion` tool declaration (`emotionTool`,
lines 960-974). -/
def declaredEmotions : List String :=
  ["normal", "anger", "annoyed", "disgust", "fear", "foodie", "guilt", "joy",
   "loving", "playful", "sadness", "shame"]

/-- Modelled from the spec: section 3 of the spec gives `ChatMessage` an
`interrupted : bool` field and the interruption flush is said to commit with
`interrupted:true`.  The source type (`src/types.ts` lines 37-43) has no such
field — its only Boolean-valued component is the optional `isPartial` — so
"the committed message carries a Boolean interruption flag set to true" is
rendered as that single Boolean component being `some true`. -/
def markedInterrupted (m : ChatMessage) : Prop := m.isPartial = some true

instance (m : ChatMessage) : Decidable (markedInterrupted m) :=
  inferInstanceAs (Decidable (m.isPartial = some true))

/-! ## Helper lemmas -/

/-- One audio payload: the start time passed to `source.start` is
`max(nextStartTime, ctx.currentTime)`, the cursor advances by exactly the
buffer's duration, and the source is registered in the active set. -/
theorem onmessage_audioMsg (ts : String) (now : ℚ) (h tN : Nat) (s : SessState) (d : ℚ) :
    (onmessage ts now h tN s (audioMsg d)).2.scheduledStart = some (max s.nextStartTime now)
      ∧ (onmessage ts now h tN s (audioMsg d)).1.nextStartTime = max s.nextStartTime now + d
      ∧ (onmessage ts now h tN s (audioMsg d)).1.sources = h :: s.sources := by
  refine ⟨by simp [onmessage, audioMsg, toolPhase, audioPhase], ?_, ?_⟩ <;>
    simp [onmessage, audioMsg, toolPhase, audioPhase, inputTransPhase, outputTransPhase,
      turnCompletePhase, interruptedPhase] <;>
    split <;> simp [commitUser]

/-- The start-time trace of a run of audio messages depends on the state only
through the cursor, and equals the pure cursor recursion. -/
theorem startsOf_eq_pureSchedule (ts : String) (h tN : Nat) (s : SessState)
    (evs : List (ℚ × ℚ)) :
    startsOf ts h tN s evs = pureSchedule s.nextStartTime evs := by
  induction evs generalizing s with
  | nil => rfl
  | cons e rest ih =>
    obtain ⟨d, now⟩ := e
    have h1 := onmessage_audioMsg ts now h tN s d
    simp only [startsOf, pureSchedule, h1.1, Option.getD_some]
    rw [ih, h1.2.1]

/-- Chaining rule of the pure cursor recursion: when every payload arrives no
later than its predecessor's scheduled end, consecutive starts differ by
exactly the predecessor's duration. -/
theorem pureSchedule_gapless (t : ℚ) (evs : List (ℚ × ℚ))
    (hyp : ∀ j, j + 1 < evs.length →
      (evs.getD (j+1) (0, 0)).2 ≤ (pureSchedule t evs).getD j 0 + (evs.getD j (0, 0)).1) :
    ∀ i, i + 1 < evs.length →
      (pureSchedule t evs).getD (i+1) 0 =
        (pureSchedule t evs).getD i 0 + (evs.getD i (0, 0)).1 := by
  induction evs generalizing t with
  | nil => intro i hi; simp at hi
  | cons e rest ih =>
    obtain ⟨d, now⟩ := e
    intro i hi
    match rest, hi with
    | (d2, n2) :: rest2, hi =>
      match i with
      | 0 =>
        have h0 := hyp 0 (by simp)
        simp only [pureSchedule, List.getD_cons_succ, List.getD_cons_zero] at h0 ⊢
        exact max_eq_left h0
      | k + 1 =>
        have hyp2 : ∀ j, j + 1 < ((d2, n2) :: rest2).length →
            (((d2, n2) :: rest2).getD (j+1) (0, 0)).2 ≤
              (pureSchedule (max t now + d) ((d2, n2) :: rest2)).getD j 0 +
                (((d2, n2) :: rest2).getD j (0, 0)).1 := by
          intro j hj
          have hj1 := hyp (j + 1) (by simpa using hj)
          simpa [pureSchedule, List.getD_cons_succ] using hj1
        have hk := ih (max t now + d) hyp2 k (by simpa using hi)
        simpa [pureSchedule, List.getD_cons_succ] using hk

/-- The tool-call loop: responses are exactly one success acknowledgement per
known-name request, in batch order, and the stored emotion is the last
`set_emotion` argument (or the prior value when none occurs). -/
theorem handleToolCalls_spec (ts : String) (fcs : List FunctionCall) (s : SessState) :
    (handleToolCalls ts s fcs).2 = fcs.filterMap (fun fc =>
        if fc.name = "set_emotion" then
          some { id := fc.id, name := fc.name, result := "success" } else none)
      ∧ (handleToolCalls ts s fcs).1.currentEmotion =
          fcs.foldl (fun cur fc => if fc.name = "set_emotion" then fc.argsEmotion else cur)
            s.currentEmotion := by
  induction fcs generalizing s with
  | nil => simp [handleToolCalls]
  | cons fc rest ih =>
    by_cases hn : fc.name = "set_emotion" <;>
      simp [handleToolCalls, hn, ih, List.foldl_cons]

/-- The audio phase never changes the stored emotion. -/
theorem audioPhase_emotion (now : ℚ) (h tN : Nat) (s : SessState) (m : ServerMessage) :
    (audioPhase now h tN s m).1.currentEmotion = s.currentEmotion := by
  cases hm : m.audioDur <;> simp [audioPhase, hm]
  split <;> simp [commitUser]

/-- The user transcription phase never changes the stored emotion. -/
theorem inputTransPhase_emotion (s : SessState) (m : ServerMessage) :
    (inputTransPhase s m).currentEmotion = s.currentEmotion := by
  cases hm : m.inputTranscription <;> simp [inputTransPhase, hm]

/-- The model transcription phase never changes the stored emotion. -/
theorem outputTransPhase_emotion (s : SessState) (m : ServerMessage) :
    (outputTransPhase s m).currentEmotion = s.currentEmotion := by
  cases hm : m.outputTranscription <;> simp [outputTransPhase, hm]

/-- The turn-complete phase never changes the stored emotion. -/
theorem turnCompletePhase_emotion (tN : Nat) (s : SessState) (m : ServerMessage) :
    (turnCompletePhase tN s m).currentEmotion = s.currentEmotion := by
  simp only [turnCompletePhase]
  split <;> [skip; rfl]
  split <;> split <;> simp [commitUser, commitModel]

/-- The interruption phase never changes the stored emotion. -/
theorem interruptedPhase_emotion (ts : String) (tN : Nat) (s : SessState)
    (m : ServerMessage) :
    (interruptedPhase ts tN s m).currentEmotion = s.currentEmotion := by
  simp only [interruptedPhase]
  split <;> [skip; rfl]
  split <;> simp

/-- The tool phase stores the last `set_emotion` argument of the batch, or
keeps the prior emotion when the message has no (matching) tool call. -/
theorem toolPhase_emotion (ts : String) (s : SessState) (m : ServerMessage) :
    (toolPhase ts s m).1.currentEmotion =
      (match m.toolCall with
        | none => s.currentEmotion
        | some fcs =>
            fcs.foldl (fun cur fc => if fc.name = "set_emotion" then fc.argsEmotion else cur)
              s.currentEmotion) := by
  cases hm : m.toolCall <;> simp [toolPhase, hm, (handleToolCalls_spec ts _ s).2]

/-- Across one whole `onmessage`, the stored emotion changes only through the
tool-call batch, to the last `set_emotion` argument. -/
theorem emotion_onmessage (ts : String) (now : ℚ) (h tN : Nat) (s : SessState)
    (m : ServerMessage) :
    (onmessage ts now h tN s m).1.currentEmotion =
      (match m.toolCall with
        | none => s.currentEmotion
        | some fcs =>
            fcs.foldl (fun cur fc => if fc.name = "set_emotion" then fc.argsEmotion else cur)
              s.currentEmotion) := by
  simp only [onmessage, interruptedPhase_emotion, turnCompletePhase_emotion,
    outputTransPhase_emotion, inputTransPhase_emotion, audioPhase_emotion,
    toolPhase_emotion]

/-! ## Claim theorems -/

/-- C1: for every inbound audio payload, `onmessage` schedules the buffer at
`max(nextStartTime, ctx.currentTime)`, advances `nextStartTime` by exactly the
buffer's duration, and registers the unit in the active set; hence for any
sequence of payloads with durations `d1..dn`, each arriving no later than its
predecessor's scheduled end, the scheduled starts satisfy
`start_{i+1} = start_i + d_i` for all `i` (no gap, no overlap). -/
theorem gapless_playback_scheduling (ts : String) (h tN : Nat) (s : SessState)
    (evs : List (ℚ × ℚ))
    (hyp : ∀ j, j + 1 < evs.length →
      (evs.getD (j+1) (0, 0)).2 ≤
        (startsOf ts h tN s evs).getD j 0 + (evs.getD j (0, 0)).1) :
    (∀ (now d : ℚ),
        (onmessage ts now h tN s (audioMsg d)).2.scheduledStart = some (max s.nextStartTime now)
      ∧ (onmessage ts now h tN s (audioMsg d)).1.nextStartTime = max s.nextStartTime now + d
      ∧ (onmessage ts now h tN s (audioMsg d)).1.sources = h :: s.sources)
    ∧ ∀ i, i + 1 < evs.length →
        (startsOf ts h tN s evs).getD (i+1) 0 =
          (startsOf ts h tN s evs).getD i 0 + (evs.getD i (0, 0)).1 := by
  refine ⟨fun now d => onmessage_audioMsg ts now h tN s d, ?_⟩
  rw [startsOf_eq_pureSchedule] at hyp ⊢
  exact pureSchedule_gapless s.nextStartTime evs hyp

/-- C1 witness: three buffers of durations 1, 1, 2 enqueued at transport times
0, 1, 2 — each no later than its predecessor's scheduled end — chain with the
second start equal to the first start plus the first duration. -/
theorem gapless_playback_scheduling_witness :
    (startsOf "t" 0 0 initState [((1 : ℚ), (0 : ℚ)), (1, 1), (2, 2)]).getD 1 0 =
      (startsOf "t" 0 0 initState [((1 : ℚ), (0 : ℚ)), (1, 1), (2, 2)]).getD 0 0
        + (([((1 : ℚ), (0 : ℚ)), (1, 1), (2, 2)] : List (ℚ × ℚ)).getD 0 (0, 0)).1 := by
  have hy : ∀ j, j + 1 < ([((1 : ℚ), (0 : ℚ)), (1, 1), (2, 2)] : List (ℚ × ℚ)).length →
      (([((1 : ℚ), (0 : ℚ)), (1, 1), (2, 2)] : List (ℚ × ℚ)).getD (j+1) (0, 0)).2 ≤
        (startsOf "t" 0 0 initState [((1 : ℚ), (0 : ℚ)), (1, 1), (2, 2)]).getD j 0 +
          (([((1 : ℚ), (0 : ℚ)), (1, 1), (2, 2)] : List (ℚ × ℚ)).getD j (0, 0)).1 := by
    intro j hj
    have hj2 : j < 2 := by simp at hj; omega
    rw [startsOf_eq_pureSchedule]
    interval_cases j <;> norm_num [pureSchedule, initState]
  exact (gapless_playback_scheduling "t" 0 0 initState _ hy).2 0 (by decide)

/-- C2: after processing an interruption signal, `stop()` has been called on
every unit of the active source set, the active set is empty and
`nextStartTime` is 0; processing the signal again immediately (or on an
already-empty active set, where the stop trace does not grow) leaves those
components — and the chat log — unchanged.  The teardown `stopEverything` has
the same effect on the scheduler. -/
theorem interrupt_postcondition_idempotent (ts : String) (now : ℚ) (h tN : Nat)
    (s : SessState) :
    (let s1 := (onmessage ts now h tN s interruptMsg).1
     s1.sources = [] ∧ s1.nextStartTime = 0
       ∧ s1.stoppedCalls = s.stoppedCalls ++ s.sources
       ∧ (∀ u ∈ s.sources, u ∈ s1.stoppedCalls)
       ∧ (let s2 := (onmessage ts now h tN s1 interruptMsg).1
          s2.sources = s1.sources ∧ s2.nextStartTime = s1.nextStartTime
            ∧ s2.stoppedCalls = s1.stoppedCalls ∧ s2.chatHistory = s1.chatHistory
            ∧ s2.currentOutput = s1.currentOutput))
    ∧ (stopEverything ts s).sources = []
    ∧ (stopEverything ts s).nextStartTime = 0
    ∧ (stopEverything ts s).stoppedCalls = s.stoppedCalls ++ s.sources := by
  refine ⟨?_, by simp [stopEverything], by simp [stopEverything], by simp [stopEverything]⟩
  simp only [onmessage, interruptMsg]
  simp [toolPhase, audioPhase, inputTransPhase, outputTransPhase, turnCompletePhase,
    interruptedPhase]
  split <;> simp <;> exact fun u hu => Or.inr hu

/-- C3: a turn-complete signal commits the model buffer first (when
non-empty), then the user buffer (when still non-empty), and clears both; in
particular user deltas "Hi " and "there" followed by a turn-complete with no
model deltas commit exactly one message `{role: user, text: "Hi there"}` and
leave the user buffer empty. -/
theorem turn_complete_commit_order (ts : String) (now : ℚ) (h tN : Nat) (s : SessState) :
    ((onmessage ts now h tN s turnCompleteMsg).1.chatHistory = s.chatHistory
        ++ (if s.currentOutput = "" then [] else
              [{ id := toString tN ++ "-model", role := .model, text := s.currentOutput,
                 timestamp := tN }])
        ++ (if s.currentInput = "" then [] else
              [{ id := toString tN ++ "-user", role := .user, text := s.currentInput,
                 timestamp := tN }])
      ∧ (onmessage ts now h tN s turnCompleteMsg).1.currentInput = ""
      ∧ (onmessage ts now h tN s turnCompleteMsg).1.currentOutput = "")
    ∧ (runMsgs initState
        [(⟨"t", 0, 0, 5⟩, userDeltaMsg "Hi "), (⟨"t", 0, 0, 6⟩, userDeltaMsg "there"),
         (⟨"t", 0, 0, 7⟩, turnCompleteMsg)]).chatHistory =
        [{ id := "7-user", role := .user, text := "Hi there", timestamp := 7 }]
    ∧ (runMsgs initState
        [(⟨"t", 0, 0, 5⟩, userDeltaMsg "Hi "), (⟨"t", 0, 0, 6⟩, userDeltaMsg "there"),
         (⟨"t", 0, 0, 7⟩, turnCompleteMsg)]).currentInput = "" := by
  refine ⟨?_, by decide, by decide⟩
  simp only [onmessage, turnCompleteMsg, toolPhase, audioPhase, inputTransPhase,
    outputTransPhase, turnCompletePhase, interruptedPhase]
  simp [commitModel, commitUser]
  split_ifs <;> simp_all [commitModel, commitUser]

/-- C4: a model audio payload arriving while the user buffer is non-empty
commits the user buffer as a user message and clears it at that moment; in the
scenario user deltas, audio-start, model delta, turn-complete, the log already
holds the user message right after the audio payload, and ends with exactly
[user, model]. -/
theorem audio_start_flush_precedence (ts : String) (now : ℚ) (h tN : Nat)
    (s : SessState) (d : ℚ) (hne : s.currentInput ≠ "") :
    ((onmessage ts now h tN s (audioMsg d)).1.chatHistory = s.chatHistory ++
        [{ id := toString tN ++ "-user", role := .user, text := s.currentInput,
           timestamp := tN }]
      ∧ (onmessage ts now h tN s (audioMsg d)).1.currentInput = "")
    ∧ (runMsgs initState
        [(⟨"t", 0, 0, 1⟩, userDeltaMsg "Hi "), (⟨"t", 0, 0, 2⟩, userDeltaMsg "there"),
         (⟨"t", 0, 0, 3⟩, audioMsg 1)]).chatHistory =
        [{ id := "3-user", role := .user, text := "Hi there", timestamp := 3 }]
    ∧ (runMsgs initState
        [(⟨"t", 0, 0, 1⟩, userDeltaMsg "Hi "), (⟨"t", 0, 0, 2⟩, userDeltaMsg "there"),
         (⟨"t", 0, 0, 3⟩, audioMsg 1), (⟨"t", 0, 0, 4⟩, modelDeltaMsg "Hello!"),
         (⟨"t", 0, 0, 5⟩, turnCompleteMsg)]).chatHistory =
        [{ id := "3-user", role := .user, text := "Hi there", timestamp := 3 },
         { id := "5-model", role := .model, text := "Hello!", timestamp := 5 }] := by
  refine ⟨?_, by decide, by decide⟩
  simp only [onmessage, audioMsg, toolPhase, audioPhase, inputTransPhase,
    outputTransPhase, turnCompletePhase, interruptedPhase]
  simp [commitUser, hne]

/-- C4 witness: with user buffer "Hi", an audio payload commits the user
message immediately. -/
theorem audio_start_flush_precedence_witness :
    ((onmessage "t" 0 0 9 { initState with currentInput := "Hi" } (audioMsg 1)).1.chatHistory =
        [{ id := "9-user", role := .user, text := "Hi", timestamp := 9 }])
    ∧ (onmessage "t" 0 0 9 { initState with currentInput := "Hi" } (audioMsg 1)).1.currentInput
        = "" := by
  have hw := (audio_start_flush_precedence "t" 0 0 9
    { initState with currentInput := "Hi" } 1 (by decide)).1
  exact ⟨by simpa using hw.1, hw.2⟩

/-- C5 counterexample: for model delta "Hello wor" followed by an interruption
signal, the single committed message carries no Boolean interruption flag —
the source `ChatMessage` type has no `interrupted` field, and its one Boolean
component (`isPartial`) is unset — so the claim's `interrupted:true` fails. -/
theorem interruption_flag_counterexample :
    (runMsgs initState
        [(⟨"t", 0, 0, 3⟩, modelDeltaMsg "Hello wor"),
         (⟨"t", 0, 0, 4⟩, interruptMsg)]).chatHistory =
      [{ id := "4-model-interrupted", role := .model, text := "Hello wor ...",
         timestamp := 4 }]
    ∧ ∀ msg ∈ (runMsgs initState
        [(⟨"t", 0, 0, 3⟩, modelDeltaMsg "Hello wor"),
         (⟨"t", 0, 0, 4⟩, interruptMsg)]).chatHistory,
        ¬ markedInterrupted msg := by
  decide

/-- C5 (amended): on an interruption signal with a non-empty model buffer,
exactly one message is committed, with role model, the truncation marker
`' ...'` appended to the accumulated text, and the interruption recorded only
in the id suffix `'-model-interrupted'` (the `ChatMessage` type has no
`interrupted` field); the model buffer is cleared and the user buffer is left
unchanged. -/
theorem interruption_transcript_truncation (ts : String) (now : ℚ) (h tN : Nat)
    (s : SessState) (hne : s.currentOutput ≠ "") :
    (onmessage ts now h tN s interruptMsg).1.chatHistory = s.chatHistory ++
        [{ id := toString tN ++ "-model-interrupted", role := .model,
           text := s.currentOutput ++ " ...", timestamp := tN }]
      ∧ (onmessage ts now h tN s interruptMsg).1.currentOutput = ""
      ∧ (onmessage ts now h tN s interruptMsg).1.currentInput = s.currentInput := by
  simp only [onmessage, interruptMsg, toolPhase, audioPhase, inputTransPhase,
    outputTransPhase, turnCompletePhase, interruptedPhase]
  simp [hne]

/-- C5 witness: with model buffer "Hello wor", the interruption commits
"Hello wor ..." and clears the buffer. -/
theorem interruption_transcript_truncation_witness :
    ((onmessage "t" 0 0 4 { initState with currentOutput := "Hello wor" } interruptMsg).1.chatHistory
        = [{ id := "4-model-interrupted", role := .model, text := "Hello wor ...",
             timestamp := 4 }])
    ∧ (onmessage "t" 0 0 4 { initState with currentOutput := "Hello wor" }
        interruptMsg).1.currentOutput = "" := by
  have hw := interruption_transcript_truncation "t" 0 0 4
    { initState with currentOutput := "Hello wor" } (by decide)
  exact ⟨by simpa using hw.1, hw.2.1⟩

/-- C6: every known-name request of a tool-call batch yields exactly one
response correlated by its call id with result success, unknown names yield no
response, the batch's responses come back together in order, and the stored
emotion is the last `set_emotion` argument; a batch of one known and one
unknown call yields exactly one response and the known call's emotion. -/
theorem tool_dispatch_round_trip (ts : String) (now : ℚ) (h tN : Nat) (s : SessState)
    (fcs : List FunctionCall) :
    ((onmessage ts now h tN s (toolMsg fcs)).2.responses = fcs.filterMap (fun fc =>
        if fc.name = "set_emotion" then
          some { id := fc.id, name := fc.name, result := "success" } else none)
      ∧ (onmessage ts now h tN s (toolMsg fcs)).1.currentEmotion =
          fcs.foldl (fun cur fc => if fc.name = "set_emotion" then fc.argsEmotion else cur)
            s.currentEmotion)
    ∧ (onmessage "t" 0 0 0 initState (toolMsg
        [{ id := "a1", name := "set_emotion", argsEmotion := "joy" },
         { id := "a2", name := "dance", argsEmotion := "x" }])).2.responses =
        [{ id := "a1", name := "set_emotion", result := "success" }]
    ∧ (onmessage "t" 0 0 0 initState (toolMsg
        [{ id := "a1", name := "set_emotion", argsEmotion := "joy" },
         { id := "a2", name := "dance", argsEmotion := "x" }])).1.currentEmotion = "joy" := by
  refine ⟨?_, by decide, by decide⟩
  have key := handleToolCalls_spec ts fcs s
  simp only [onmessage, toolMsg, toolPhase, audioPhase, inputTransPhase,
    outputTransPhase, turnCompletePhase, interruptedPhase]
  exact ⟨key.1, key.2⟩

/-- C7 counterexample: after the transport error callback runs on a connected
session, the connection state is `DISCONNECTED`, not `ERROR` — the `stop()`
cleanup it triggers overwrites the `ERROR` transition — so "the state remains
Error afterward" fails. -/
theorem transport_error_state_counterexample :
    (onerror "t" "boom" { initState with connectionState := .CONNECTED }).connectionState =
      ConnState.DISCONNECTED
    ∧ (onerror "t" "boom"
        { initState with connectionState := .CONNECTED }).connectionState ≠
      ConnState.ERROR := by
  decide

/-- C7 (amended): the transport error callback surfaces the human-readable
message "Connection error occurred.", transiently transitions to `ERROR`, and
performs the same cleanup as `stop()` — pump refs cleared, scheduler cleared
and cursor reset, session closed, accumulators reset; because that cleanup
itself transitions to `DISCONNECTED`, the state after the callback is
`DISCONNECTED` (with the error message still surfaced), not `ERROR`. -/
theorem transport_error_cleanup (ts errText : String) (s : SessState) :
    (onerror ts errText s).errorMsg = some "Connection error occurred."
      ∧ (onerror ts errText s).connectionState = ConnState.DISCONNECTED
      ∧ (onerror ts errText s).frameInterval = none
      ∧ (onerror ts errText s).scriptProcessor = false
      ∧ (onerror ts errText s).inputSource = false
      ∧ (onerror ts errText s).sources = []
      ∧ (onerror ts errText s).nextStartTime = 0
      ∧ (onerror ts errText s).sessionOpen = false
      ∧ (onerror ts errText s).currentInput = ""
      ∧ (onerror ts errText s).currentOutput = ""
      ∧ (onerror ts errText s).stoppedCalls = s.stoppedCalls ++ s.sources := by
  simp [onerror, stopEverything]

/-- C8: `stopEverything` is total on states (callable from any state, also one
never started), always leaves the connection `DISCONNECTED`, timers and
processors cleared, the playback cursor 0, the accumulators empty, and a
second consecutive call changes nothing besides prepending one more debug-log
entry. -/
theorem stop_idempotent_teardown (ts ts2 : String) (s : SessState) :
    (stopEverything ts s).connectionState = ConnState.DISCONNECTED
      ∧ (stopEverything ts s).frameInterval = none
      ∧ (stopEverything ts s).scriptProcessor = false
      ∧ (stopEverything ts s).inputSource = false
      ∧ (stopEverything ts s).sources = []
      ∧ (stopEverything ts s).nextStartTime = 0
      ∧ (stopEverything ts s).sessionOpen = false
      ∧ (stopEverything ts s).currentInput = ""
      ∧ (stopEverything ts s).currentOutput = ""
      ∧ eraseLogs (stopEverything ts2 (stopEverything ts s)) =
          eraseLogs (stopEverything ts s) := by
  simp [stopEverything, eraseLogs]

/-- C9 counterexample: a dispatched `set_emotion` call whose argument is not
in the declared enumeration is stored verbatim — the handler never validates
`args.emotion` — so the membership invariant fails on a reachable state. -/
theorem emotion_enum_counterexample :
    (onmessage "t" 0 0 0 initState (toolMsg
        [{ id := "c1", name := "set_emotion", argsEmotion := "confused" }])).1.currentEmotion =
      "confused"
    ∧ "confused" ∉ declaredEmotions := by
  decide

/-- C9 (amended): the emotion starts at the baseline "normal" (a member of
the declared enumeration) and is mutated only by a dispatched `set_emotion`
tool call, which stores the call's `emotion` argument verbatim — without
validating it against the declared enumeration; no other inbound event, nor
`stopEverything`, nor the error callback, changes it. -/
theorem emotion_mutation_invariant (ts e : String) (now : ℚ) (h tN : Nat)
    (s : SessState) (m : ServerMessage) :
    initState.currentEmotion = "normal"
      ∧ "normal" ∈ declaredEmotions
      ∧ (onmessage ts now h tN s m).1.currentEmotion =
          (match m.toolCall with
            | none => s.currentEmotion
            | some fcs => fcs.foldl
                (fun cur fc => if fc.name = "set_emotion" then fc.argsEmotion else cur)
                s.currentEmotion)
      ∧ (stopEverything ts s).currentEmotion = s.currentEmotion
      ∧ (onerror ts e s).currentEmotion = s.currentEmotion := by
  exact ⟨rfl, by decide, emotion_onmessage ts now h tN s m, rfl, rfl⟩

/-- C10: after every `addLog` call the debug log holds at most 25 entries, the
new entry is first, and the surviving older entries are exactly the first 24
previous entries in their old order (entries beyond the 25th are dropped). -/
theorem bounded_debug_log (ts msg : String) (l : List String) :
    (addLog ts msg l).length ≤ 25
      ∧ (addLog ts msg l).head? = some ("[" ++ ts ++ "] " ++ msg)
      ∧ (addLog ts msg l).tail = l.take 24 := by
  refine ⟨?_, ?_, ?_⟩ <;> simp [addLog, List.take_succ_cons]

end DoubaoLive
